import Mathlib

/-!
Verification of the bank-support prompt chain (src/prompt-chain.js).

The program is a 5-stage prompt chain over an external text-completion
service (Together AI).  We embed it shallowly:

* the Completion Service is an abstract function from an `ApiCall`
  (prompt, temperature, max-tokens) to `Except ε String`;
* `callTogetherAI` is modelled over an abstract `FetchOutcome`, the
  observable result of the single HTTP round trip it performs;
* `runPromptChain` is the orchestrator translated from the source
  do-block; `runPromptChainTrace` is the same computation instrumented
  to also return the list of service calls actually issued, and
  `runPromptChainIndexed` threads a call counter so that consecutive
  executions against a possibly time-varying service can be compared;
* `processBatch` models the demo `main` loop: a single try/catch around
  the whole iteration, so the first failing query aborts the rest.

Temperatures are embedded as rationals (0.3 as 3/10, 0.5 as 1/2).
-/

namespace BankSupportChain

/-- One request issued to the Completion Service:
the prompt text plus the generation parameters passed to
`callTogetherAI(prompt, temperature, maxTokens)`. -/
structure ApiCall where
  prompt : String
  temperature : ℚ
  maxTokens : ℕ
deriving DecidableEq, Repr

/-- The observable outcome of the one `fetch` performed by
`callTogetherAI`: either the transport itself failed, or a response
arrived with its `ok` flag, numeric `status`, the (stringified) error
body used in the thrown message, and `content` — `some text` when the
body parses to `choices[0].message.content`, `none` when the body is
malformed so that the field access throws. -/
inductive FetchOutcome where
  | transportError (msg : String)
  | response (ok : Bool) (status : ℕ) (errorBody : String) (content : Option String)
deriving DecidableEq, Repr

/-- JavaScript `String.prototype.trim`: removes leading and trailing
whitespace characters. -/
def jsTrim (s : String) : String :=
  String.mk (((s.data.dropWhile Char.isWhitespace).reverse.dropWhile Char.isWhitespace).reverse)

/-- `callTogetherAI`, src/prompt-chain.js lines 30-64, as a function of
the outcome of its single `fetch`.  A transport error is rethrown; a
non-ok response throws the formatted API error; a malformed body (no
`choices[0].message.content`) throws; otherwise the content is returned
trimmed.  The function performs exactly one fetch — it never retries. -/
def callTogetherAI : FetchOutcome → Except String String
  | FetchOutcome.transportError msg => Except.error msg
  | FetchOutcome.response ok status errorBody content =>
    if ok then
      match content with
      | some text => Except.ok (jsTrim text)
      | none => Except.error "TypeError: cannot read message content of undefined"
    else
      Except.error ("Together AI API Error: " ++ toString status ++ " - " ++ errorBody)

/-- Stage 1 prompt (source lines 81-85): built solely from the query. -/
def prompt1 (query : String) : String :=
  "Analyze the following customer query and identify the primary intent. What is the customer trying to accomplish or what problem are they reporting?\n\nCustomer Query: " ++ query ++ "\n\nProvide a clear, one-sentence summary of the customer\x27s intent. Focus on the underlying need or goal, not just the literal words used."

/-- Stage 2 prompt (source lines 93-105): built from the stage-1 intent. -/
def prompt2 (intent : String) : String :=
  "Based on the customer\x27s intent, suggest 1-3 possible categories that could apply from this list:\n- Account Opening\n- Billing Issue\n- Account Access\n- Transaction Inquiry\n- Card Services\n- Account Statement\n- Loan Inquiry\n- General Information\n\nCustomer Intent: " ++ intent ++ "\n\nList the categories in order of relevance (most relevant first). For each category, provide a brief reason why it might apply."

/-- Stage 3 prompt (source lines 113-121): built from intent, query and
the stage-2 categories. -/
def prompt3 (intent query categories : String) : String :=
  "Review the suggested categories and select the single most appropriate category for this customer query.\n\nCustomer Intent: " ++ intent ++ "\nOriginal Query: " ++ query ++ "\nSuggested Categories: " ++ categories ++ "\n\nChoose exactly ONE category from the suggestions and explain your choice in 1-2 sentences. Consider which category would lead to the most effective resolution of the customer\x27s issue.\n\nSelected Category:"

/-- Stage 4 prompt (source lines 130-142): built from the query and the
category name derived from the stage-3 output. -/
def prompt4 (query categoryName : String) : String :=
  "Identify any additional details from the customer\x27s query that would be relevant for addressing their request in the \"" ++ categoryName ++ "\" category.\n\nOriginal Query: " ++ query ++ "\n\nExtract the following types of information if present:\n- Specific amounts (transaction amounts, fees, etc.)\n- Dates or time periods\n- Account types or numbers (last 4 digits only)\n- Card types (credit/debit)\n- Transaction descriptions or merchant names\n- Any error messages or specific symptoms\n\nList each detail found with its type. If no additional details are present, state \"No additional details provided.\""

/-- Stage 5 prompt (source lines 150-164): built from the selected
category, intent, details and the original query. -/
def prompt5 (selectedCategory intent details query : String) : String :=
  "Generate a professional, helpful response to the customer based on all the information gathered.\n\nCategory: " ++ selectedCategory ++ "\nCustomer Intent: " ++ intent ++ "\nAdditional Details: " ++ details ++ "\nOriginal Query: " ++ query ++ "\n\nYour response should:\n- Acknowledge the customer\x27s concern\n- Provide relevant next steps or information\n- Be concise (2-4 sentences)\n- Use a friendly, professional tone\n- Include any relevant details extracted from their query\n\nResponse:"

/-- The stage-1 call: `callTogetherAI(prompt1, 0.3, 150)` (line 87). -/
def stage1Call (query : String) : ApiCall :=
  { prompt := prompt1 query, temperature := 3/10, maxTokens := 150 }

/-- The stage-2 call: `callTogetherAI(prompt2, 0.3, 250)` (line 107). -/
def stage2Call (intent : String) : ApiCall :=
  { prompt := prompt2 intent, temperature := 3/10, maxTokens := 250 }

/-- The stage-3 call: `callTogetherAI(prompt3, 0.3, 150)` (line 123). -/
def stage3Call (intent query categories : String) : ApiCall :=
  { prompt := prompt3 intent query categories, temperature := 3/10, maxTokens := 150 }

/-- The stage-4 call: `callTogetherAI(prompt4, 0.3, 200)` (line 144). -/
def stage4Call (query categoryName : String) : ApiCall :=
  { prompt := prompt4 query categoryName, temperature := 3/10, maxTokens := 200 }

/-- The stage-5 call: `callTogetherAI(prompt5, 0.5, 300)` (line 166). -/
def stage5Call (selectedCategory intent details query : String) : ApiCall :=
  { prompt := prompt5 selectedCategory intent details query, temperature := 1/2, maxTokens := 300 }

/-- Category-name extraction, source line 129:
`selectedCategory.split(':')[0].trim()`.  The first element of a
JavaScript `split(':')` is exactly the text preceding the first `:`
(the whole string when no colon occurs), so we take the characters
before the first colon and trim. -/
def categoryNameOf (selectedCategory : String) : String :=
  jsTrim (String.mk (selectedCategory.data.takeWhile (fun c => c != ':')))

/-- `runPromptChain` (source lines 72-172): five sequential Completion
Service calls, each prompt built from the accumulated outputs, results
collected in order; any failing call propagates immediately. -/
def runPromptChain {ε : Type} (svc : ApiCall → Except ε String) (query : String) :
    Except ε (List String) := do
  let intent ← svc (stage1Call query)
  let categories ← svc (stage2Call intent)
  let selectedCategory ← svc (stage3Call intent query categories)
  let details ← svc (stage4Call query (categoryNameOf selectedCategory))
  let response ← svc (stage5Call selectedCategory intent details query)
  return [intent, categories, selectedCategory, details, response]

/-- `runPromptChain` instrumented with the list of Completion Service
calls actually issued, in order.  Same control flow as the source: a
stage is attempted only after all previous stages succeeded. -/
def runPromptChainTrace {ε : Type} (svc : ApiCall → Except ε String) (query : String) :
    List ApiCall × Except ε (List String) :=
  let c1 := stage1Call query
  match svc c1 with
  | Except.error e => ([c1], Except.error e)
  | Except.ok intent =>
    let c2 := stage2Call intent
    match svc c2 with
    | Except.error e => ([c1, c2], Except.error e)
    | Except.ok categories =>
      let c3 := stage3Call intent query categories
      match svc c3 with
      | Except.error e => ([c1, c2, c3], Except.error e)
      | Except.ok selectedCategory =>
        let c4 := stage4Call query (categoryNameOf selectedCategory)
        match svc c4 with
        | Except.error e => ([c1, c2, c3, c4], Except.error e)
        | Except.ok details =>
          let c5 := stage5Call selectedCategory intent details query
          match svc c5 with
          | Except.error e => ([c1, c2, c3, c4, c5], Except.error e)
          | Except.ok response =>
            ([c1, c2, c3, c4, c5],
             Except.ok [intent, categories, selectedCategory, details, response])

/-- `runPromptChain` against a service that may answer differently on
each successive invocation: `svc n` answers the (n+1)-th call ever made.
Used to state determinism of the chain when the service is in fact
insensitive to the invocation index. -/
def runPromptChainIndexed {ε : Type} (svc : ℕ → ApiCall → Except ε String) (n : ℕ)
    (query : String) : Except ε (List String) := do
  let intent ← svc n (stage1Call query)
  let categories ← svc (n + 1) (stage2Call intent)
  let selectedCategory ← svc (n + 2) (stage3Call intent query categories)
  let details ← svc (n + 3) (stage4Call query (categoryNameOf selectedCategory))
  let response ← svc (n + 4) (stage5Call selectedCategory intent details query)
  return [intent, categories, selectedCategory, details, response]

/-- The batch loop of `main` (source lines 202-246): one try/catch wraps
the whole `for` loop, so the chain runs for each query in order until
the first failure, which aborts the rest of the batch.  Returns the
queries for which `runPromptChain` was actually invoked, paired with the
overall outcome (`main` only logs the per-query results). -/
def processBatch {ε : Type} (svc : ApiCall → Except ε String) :
    List String → List String × Except ε Unit
  | [] => ([], Except.ok ())
  | q :: rest =>
    match runPromptChain svc q with
    | Except.error e => ([q], Except.error e)
    | Except.ok _ =>
      let r := processBatch svc rest
      (q :: r.1, r.2)

/-- `sub` occurs verbatim (as a contiguous substring) in `hay`. -/
def containsStr (hay sub : String) : Prop :=
  ∃ a b : String, hay = a ++ sub ++ b

/-- A concrete deterministic service answering every call with `out`. -/
def svcConst : ApiCall → Except String String :=
  fun _ => Except.ok "out"

/-- A concrete deterministic indexed service, insensitive to the call
counter. -/
def svcConstIdx : ℕ → ApiCall → Except String String :=
  fun _ _ => Except.ok "out"

/-- A concrete service that fails exactly on the stage-3 prompt (the only
stage prompt starting with the letter R) and succeeds elsewhere. -/
def svcFail3 : ApiCall → Except String String :=
  fun c => if c.prompt.data.head? = some 'R' then Except.error "stage3 down" else Except.ok "out"

/-- A concrete service that fails whenever the prompt mentions the
character `!` (so a query containing `!` makes its chain fail) and
returns `out` otherwise. -/
def svcBang : ApiCall → Except String String :=
  fun c => if c.prompt.data.contains '!' then Except.error "boom" else Except.ok "out"

/-- A concrete service forwarding every call to `callTogetherAI` applied
to an ok response whose generated content is the empty string. -/
def svcEmpty : ApiCall → Except String String :=
  fun _ => callTogetherAI (FetchOutcome.response true 200 "" (some ""))

theorem ok_bind {ε α β : Type} (a : α) (f : α → Except ε β) :
    (Except.ok a >>= f : Except ε β) = f a := rfl

theorem error_bind {ε α β : Type} (e : ε) (f : α → Except ε β) :
    ((Except.error e : Except ε α) >>= f) = Except.error e := rfl

theorem pure_eq_ok {ε α : Type} (a : α) : (pure a : Except ε α) = Except.ok a := rfl

theorem data_mk (l : List Char) : (String.mk l).data = l := rfl

theorem containsStr_self (sub : String) : containsStr sub sub :=
  ⟨"", "", by cases sub with | mk l => simp [String.append]⟩

theorem containsStr_appendl {x sub : String} (y : String) (h : containsStr x sub) :
    containsStr (x ++ y) sub := by
  obtain ⟨a, b, rfl⟩ := h
  exact ⟨a, b ++ y, by rw [String.append_assoc]⟩

theorem containsStr_appendr (x : String) {y sub : String} (h : containsStr y sub) :
    containsStr (x ++ y) sub := by
  obtain ⟨a, b, rfl⟩ := h
  exact ⟨x ++ a, b, by simp [String.append_assoc]⟩

/-- Exhaustive characterization of one chain execution: the service
calls issued, their results, the trace and the final value, in each of
the six possible control paths (failure at one of the five stages, or
full success). -/
theorem chain_cases {ε : Type} (svc : ApiCall → Except ε String) (query : String) :
    (∃ e, svc (stage1Call query) = Except.error e ∧
      runPromptChainTrace svc query = ([stage1Call query], Except.error e) ∧
      runPromptChain svc query = Except.error e) ∨
    (∃ intent e, svc (stage1Call query) = Except.ok intent ∧
      svc (stage2Call intent) = Except.error e ∧
      runPromptChainTrace svc query = ([stage1Call query, stage2Call intent], Except.error e) ∧
      runPromptChain svc query = Except.error e) ∨
    (∃ intent categories e, svc (stage1Call query) = Except.ok intent ∧
      svc (stage2Call intent) = Except.ok categories ∧
      svc (stage3Call intent query categories) = Except.error e ∧
      runPromptChainTrace svc query =
        ([stage1Call query, stage2Call intent, stage3Call intent query categories],
         Except.error e) ∧
      runPromptChain svc query = Except.error e) ∨
    (∃ intent categories selectedCategory e, svc (stage1Call query) = Except.ok intent ∧
      svc (stage2Call intent) = Except.ok categories ∧
      svc (stage3Call intent query categories) = Except.ok selectedCategory ∧
      svc (stage4Call query (categoryNameOf selectedCategory)) = Except.error e ∧
      runPromptChainTrace svc query =
        ([stage1Call query, stage2Call intent, stage3Call intent query categories,
          stage4Call query (categoryNameOf selectedCategory)], Except.error e) ∧
      runPromptChain svc query = Except.error e) ∨
    (∃ intent categories selectedCategory details e,
      svc (stage1Call query) = Except.ok intent ∧
      svc (stage2Call intent) = Except.ok categories ∧
      svc (stage3Call intent query categories) = Except.ok selectedCategory ∧
      svc (stage4Call query (categoryNameOf selectedCategory)) = Except.ok details ∧
      svc (stage5Call selectedCategory intent details query) = Except.error e ∧
      runPromptChainTrace svc query =
        ([stage1Call query, stage2Call intent, stage3Call intent query categories,
          stage4Call query (categoryNameOf selectedCategory),
          stage5Call selectedCategory intent details query], Except.error e) ∧
      runPromptChain svc query = Except.error e) ∨
    (∃ intent categories selectedCategory details response,
      svc (stage1Call query) = Except.ok intent ∧
      svc (stage2Call intent) = Except.ok categories ∧
      svc (stage3Call intent query categories) = Except.ok selectedCategory ∧
      svc (stage4Call query (categoryNameOf selectedCategory)) = Except.ok details ∧
      svc (stage5Call selectedCategory intent details query) = Except.ok response ∧
      runPromptChainTrace svc query =
        ([stage1Call query, stage2Call intent, stage3Call intent query categories,
          stage4Call query (categoryNameOf selectedCategory),
          stage5Call selectedCategory intent details query],
         Except.ok [intent, categories, selectedCategory, details, response]) ∧
      runPromptChain svc query =
        Except.ok [intent, categories, selectedCategory, details, response]) := by
  rcases h1 : svc (stage1Call query) with e | intent
  · exact Or.inl ⟨e, rfl,
      by simp only [runPromptChainTrace, h1],
      by simp only [runPromptChain, h1, error_bind]⟩
  · rcases h2 : svc (stage2Call intent) with e | categories
    · exact Or.inr (Or.inl ⟨intent, e, rfl, h2,
        by simp only [runPromptChainTrace, h1, h2],
        by simp only [runPromptChain, h1, h2, ok_bind, error_bind]⟩)
    · rcases h3 : svc (stage3Call intent query categories) with e | selectedCategory
      · exact Or.inr (Or.inr (Or.inl ⟨intent, categories, e, rfl, h2, h3,
          by simp only [runPromptChainTrace, h1, h2, h3],
          by simp only [runPromptChain, h1, h2, h3, ok_bind, error_bind]⟩))
      · rcases h4 : svc (stage4Call query (categoryNameOf selectedCategory)) with e | details
        · exact Or.inr (Or.inr (Or.inr (Or.inl
            ⟨intent, categories, selectedCategory, e, rfl, h2, h3, h4,
             by simp only [runPromptChainTrace, h1, h2, h3, h4],
             by simp only [runPromptChain, h1, h2, h3, h4, ok_bind, error_bind]⟩)))
        · rcases h5 : svc (stage5Call selectedCategory intent details query) with e | response
          · exact Or.inr (Or.inr (Or.inr (Or.inr (Or.inl
              ⟨intent, categories, selectedCategory, details, e, rfl, h2, h3, h4, h5,
               by simp only [runPromptChainTrace, h1, h2, h3, h4, h5],
               by simp only [runPromptChain, h1, h2, h3, h4, h5, ok_bind, error_bind]⟩))))
          · exact Or.inr (Or.inr (Or.inr (Or.inr (Or.inr
              ⟨intent, categories, selectedCategory, details, response, rfl, h2, h3, h4, h5,
               by simp only [runPromptChainTrace, h1, h2, h3, h4, h5],
               by simp only [runPromptChain, h1, h2, h3, h4, h5, ok_bind, pure_eq_ok]⟩))))

/-- C1: for every service and query, `runPromptChain` either fails or
returns exactly the 5-element ordered list
`[intent, categories, selectedCategory, details, response]`, each entry
being the output of the corresponding stage — never fewer than 5
entries or a malformed sequence. -/
theorem runPromptChain_five_ordered_or_fails {ε : Type} (svc : ApiCall → Except ε String)
    (query : String) :
    (∃ e, runPromptChain svc query = Except.error e) ∨
    (∃ intent categories selectedCategory details response,
      svc (stage1Call query) = Except.ok intent ∧
      svc (stage2Call intent) = Except.ok categories ∧
      svc (stage3Call intent query categories) = Except.ok selectedCategory ∧
      svc (stage4Call query (categoryNameOf selectedCategory)) = Except.ok details ∧
      svc (stage5Call selectedCategory intent details query) = Except.ok response ∧
      runPromptChain svc query =
        Except.ok [intent, categories, selectedCategory, details, response]) := by
  rcases chain_cases svc query with
    ⟨e, _, _, hr⟩ | ⟨i, e, _, _, _, hr⟩ | ⟨i, c, e, _, _, _, _, hr⟩ |
    ⟨i, c, s, e, _, _, _, _, _, hr⟩ | ⟨i, c, s, d, e, _, _, _, _, _, _, hr⟩ |
    ⟨i, c, s, d, r, h1, h2, h3, h4, h5, _, hr⟩
  · exact Or.inl ⟨e, hr⟩
  · exact Or.inl ⟨e, hr⟩
  · exact Or.inl ⟨e, hr⟩
  · exact Or.inl ⟨e, hr⟩
  · exact Or.inl ⟨e, hr⟩
  · exact Or.inr ⟨i, c, s, d, r, h1, h2, h3, h4, h5, hr⟩

/-- C2: when the Completion Service fails, the chain aborts immediately:
the issued calls are the successful prefix plus the single failing call
(at most 5 in total, so no stage is retried), every call before the
failing one succeeded, no partial result is produced — the single error
carries exactly the triggering cause; and in particular a stage-3
failure means the trace stops at stage 3, so stages 4 and 5 are never
invoked. -/
theorem runPromptChain_failure_semantics {ε : Type} (svc : ApiCall → Except ε String)
    (query : String) (e : ε) (h : runPromptChain svc query = Except.error e) :
    (∃ pre fail, runPromptChainTrace svc query = (pre ++ [fail], Except.error e) ∧
      svc fail = Except.error e ∧
      (∀ c ∈ pre, ∃ s, svc c = Except.ok s) ∧
      pre.length ≤ 4) ∧
    (∀ intent categories,
      svc (stage1Call query) = Except.ok intent →
      svc (stage2Call intent) = Except.ok categories →
      svc (stage3Call intent query categories) = Except.error e →
      runPromptChainTrace svc query =
        ([stage1Call query, stage2Call intent, stage3Call intent query categories],
         Except.error e)) := by
  constructor
  · rcases chain_cases svc query with
      ⟨e₁, hc1, ht, hr⟩ | ⟨i, e₁, hc1, hc2, ht, hr⟩ | ⟨i, c, e₁, hc1, hc2, hc3, ht, hr⟩ |
      ⟨i, c, s, e₁, hc1, hc2, hc3, hc4, ht, hr⟩ |
      ⟨i, c, s, d, e₁, hc1, hc2, hc3, hc4, hc5, ht, hr⟩ |
      ⟨i, c, s, d, r, hc1, hc2, hc3, hc4, hc5, ht, hr⟩
    · obtain rfl : e₁ = e := Except.error.inj (hr.symm.trans h)
      refine ⟨[], stage1Call query, by simpa using ht, hc1, ?_, by simp⟩
      intro x hx
      simp at hx
    · obtain rfl : e₁ = e := Except.error.inj (hr.symm.trans h)
      refine ⟨[stage1Call query], stage2Call i, by simpa using ht, hc2, ?_, by simp⟩
      intro x hx
      simp only [List.mem_singleton] at hx
      subst hx
      exact ⟨i, hc1⟩
    · obtain rfl : e₁ = e := Except.error.inj (hr.symm.trans h)
      refine ⟨[stage1Call query, stage2Call i], stage3Call i query c,
        by simpa using ht, hc3, ?_, by simp⟩
      intro x hx
      rcases List.mem_pair.mp hx with rfl | rfl
      · exact ⟨i, hc1⟩
      · exact ⟨c, hc2⟩
    · obtain rfl : e₁ = e := Except.error.inj (hr.symm.trans h)
      refine ⟨[stage1Call query, stage2Call i, stage3Call i query c],
        stage4Call query (categoryNameOf s), by simpa using ht, hc4, ?_, by simp⟩
      intro x hx
      simp only [List.mem_cons, List.mem_singleton, List.not_mem_nil, or_false] at hx
      rcases hx with rfl | rfl | rfl
      · exact ⟨i, hc1⟩
      · exact ⟨c, hc2⟩
      · exact ⟨s, hc3⟩
    · obtain rfl : e₁ = e := Except.error.inj (hr.symm.trans h)
      refine ⟨[stage1Call query, stage2Call i, stage3Call i query c,
        stage4Call query (categoryNameOf s)],
        stage5Call s i d query, by simpa using ht, hc5, ?_, by simp⟩
      intro x hx
      simp only [List.mem_cons, List.mem_singleton, List.not_mem_nil, or_false] at hx
      rcases hx with rfl | rfl | rfl | rfl
      · exact ⟨i, hc1⟩
      · exact ⟨c, hc2⟩
      · exact ⟨s, hc3⟩
      · exact ⟨d, hc4⟩
    · rw [hr] at h
      simp at h
  · intro intent categories h1 h2 h3
    simp only [runPromptChainTrace, h1, h2, h3]

/-- C5: in every chain execution, stage k is attempted only after stages
1..k-1 succeeded, and the k-th issued call is built from exactly the
outputs of stages 1..k-1 and the original query (the prompt functions
take no other data): the trace and result are exactly one of the six
control paths. -/
theorem chain_context_and_ordering {ε : Type} (svc : ApiCall → Except ε String)
    (query : String) :
    (∃ e, svc (stage1Call query) = Except.error e ∧
      runPromptChainTrace svc query = ([stage1Call query], Except.error e) ∧
      runPromptChain svc query = Except.error e) ∨
    (∃ intent e, svc (stage1Call query) = Except.ok intent ∧
      svc (stage2Call intent) = Except.error e ∧
      runPromptChainTrace svc query = ([stage1Call query, stage2Call intent], Except.error e) ∧
      runPromptChain svc query = Except.error e) ∨
    (∃ intent categories e, svc (stage1Call query) = Except.ok intent ∧
      svc (stage2Call intent) = Except.ok categories ∧
      svc (stage3Call intent query categories) = Except.error e ∧
      runPromptChainTrace svc query =
        ([stage1Call query, stage2Call intent, stage3Call intent query categories],
         Except.error e) ∧
      runPromptChain svc query = Except.error e) ∨
    (∃ intent categories selectedCategory e, svc (stage1Call query) = Except.ok intent ∧
      svc (stage2Call intent) = Except.ok categories ∧
      svc (stage3Call intent query categories) = Except.ok selectedCategory ∧
      svc (stage4Call query (categoryNameOf selectedCategory)) = Except.error e ∧
      runPromptChainTrace svc query =
        ([stage1Call query, stage2Call intent, stage3Call intent query categories,
          stage4Call query (categoryNameOf selectedCategory)], Except.error e) ∧
      runPromptChain svc query = Except.error e) ∨
    (∃ intent categories selectedCategory details e,
      svc (stage1Call query) = Except.ok intent ∧
      svc (stage2Call intent) = Except.ok categories ∧
      svc (stage3Call intent query categories) = Except.ok selectedCategory ∧
      svc (stage4Call query (categoryNameOf selectedCategory)) = Except.ok details ∧
      svc (stage5Call selectedCategory intent details query) = Except.error e ∧
      runPromptChainTrace svc query =
        ([stage1Call query, stage2Call intent, stage3Call intent query categories,
          stage4Call query (categoryNameOf selectedCategory),
          stage5Call selectedCategory intent details query], Except.error e) ∧
      runPromptChain svc query = Except.error e) ∨
    (∃ intent categories selectedCategory details response,
      svc (stage1Call query) = Except.ok intent ∧
      svc (stage2Call intent) = Except.ok categories ∧
      svc (stage3Call intent query categories) = Except.ok selectedCategory ∧
      svc (stage4Call query (categoryNameOf selectedCategory)) = Except.ok details ∧
      svc (stage5Call selectedCategory intent details query) = Except.ok response ∧
      runPromptChainTrace svc query =
        ([stage1Call query, stage2Call intent, stage3Call intent query categories,
          stage4Call query (categoryNameOf selectedCategory),
          stage5Call selectedCategory intent details query],
         Except.ok [intent, categories, selectedCategory, details, response]) ∧
      runPromptChain svc query =
        Except.ok [intent, categories, selectedCategory, details, response]) :=
  chain_cases svc query

/-- C2 witness: a concrete service that fails exactly at stage 3 leaves
a trace that stops at stage 3 — stages 4 and 5 are never invoked. -/
theorem runPromptChain_failure_semantics_witness :
    runPromptChainTrace svcFail3 "q" =
      ([stage1Call "q", stage2Call "out", stage3Call "out" "q" "out"],
       Except.error "stage3 down") :=
  (runPromptChain_failure_semantics svcFail3 "q" "stage3 down" (by rfl)).2 "out" "out"
    (by rfl) (by rfl) (by rfl)

/-- C3: the derived category name is the text of `selectedCategory`
preceding the first colon, trimmed: on
`"Billing Issue: explanation text"` it is `"Billing Issue"`, and for any
string containing no colon it is the full trimmed string (in
particular on `"no colon present"`). -/
theorem categoryName_extraction :
    categoryNameOf "Billing Issue: explanation text" = "Billing Issue" ∧
    (∀ s : String, (∀ c ∈ s.data, c ≠ ':') → categoryNameOf s = jsTrim s) ∧
    categoryNameOf "no colon present" = "no colon present" := by
  refine ⟨by decide, ?_, by decide⟩
  intro s h
  unfold categoryNameOf
  have hs : s.data.takeWhile (fun c => c != ':') = s.data := by
    rw [List.takeWhile_eq_self_iff]
    intro c hc
    simpa using h c hc
  rw [hs]

/-- C3 witness: the colon-free input `"no colon present"` satisfies the
no-colon hypothesis and extraction returns the full trimmed string. -/
theorem categoryName_extraction_witness :
    categoryNameOf "no colon present" = jsTrim "no colon present" :=
  categoryName_extraction.2.1 "no colon present" (by decide)

/-- C4: each constructed prompt embeds verbatim every input its stage
declares: stage 2 embeds the intent; stage 3 embeds the intent, the
original query and the categories; stage 4 embeds the query and the
derived category name; stage 5 embeds the selected category, the
intent, the details and the original query. -/
theorem prompts_embed_required_inputs
    (query intent categories selectedCategory details : String) :
    containsStr (stage2Call intent).prompt intent ∧
    (containsStr (stage3Call intent query categories).prompt intent ∧
      containsStr (stage3Call intent query categories).prompt query ∧
      containsStr (stage3Call intent query categories).prompt categories) ∧
    (containsStr (stage4Call query (categoryNameOf selectedCategory)).prompt query ∧
      containsStr (stage4Call query (categoryNameOf selectedCategory)).prompt
        (categoryNameOf selectedCategory)) ∧
    (containsStr (stage5Call selectedCategory intent details query).prompt selectedCategory ∧
      containsStr (stage5Call selectedCategory intent details query).prompt intent ∧
      containsStr (stage5Call selectedCategory intent details query).prompt details ∧
      containsStr (stage5Call selectedCategory intent details query).prompt query) := by
  simp only [stage2Call, stage3Call, stage4Call, stage5Call, prompt2, prompt3, prompt4, prompt5]
  refine ⟨?_, ⟨?_, ?_, ?_⟩, ⟨?_, ?_⟩, ⟨?_, ?_, ?_, ?_⟩⟩
  · exact containsStr_appendl _ (containsStr_appendr _ (containsStr_self _))
  · exact containsStr_appendl _ (containsStr_appendl _ (containsStr_appendl _
      (containsStr_appendl _ (containsStr_appendl _ (containsStr_appendr _
      (containsStr_self _))))))
  · exact containsStr_appendl _ (containsStr_appendl _ (containsStr_appendl _
      (containsStr_appendr _ (containsStr_self _))))
  · exact containsStr_appendl _ (containsStr_appendr _ (containsStr_self _))
  · exact containsStr_appendl _ (containsStr_appendr _ (containsStr_self _))
  · exact containsStr_appendl _ (containsStr_appendl _ (containsStr_appendl _
      (containsStr_appendr _ (containsStr_self _))))
  · exact containsStr_appendl _ (containsStr_appendl _ (containsStr_appendl _
      (containsStr_appendl _ (containsStr_appendl _ (containsStr_appendl _
      (containsStr_appendl _ (containsStr_appendr _ (containsStr_self _))))))))
  · exact containsStr_appendl _ (containsStr_appendl _ (containsStr_appendl _
      (containsStr_appendl _ (containsStr_appendl _ (containsStr_appendr _
      (containsStr_self _))))))
  · exact containsStr_appendl _ (containsStr_appendl _ (containsStr_appendl _
      (containsStr_appendr _ (containsStr_self _))))
  · exact containsStr_appendl _ (containsStr_appendr _ (containsStr_self _))

/-- C6: `callTogetherAI` rethrows a transport error, throws on a
non-success status (with the formatted status and error body), throws on
a malformed body, and on success returns the generated content with
leading and trailing whitespace removed (the removed prefix and suffix
consist of whitespace only); it consumes exactly one fetch outcome, so
nothing is retried. -/
theorem callTogetherAI_contract :
    (∀ msg, callTogetherAI (FetchOutcome.transportError msg) = Except.error msg) ∧
    (∀ status errorBody content,
      callTogetherAI (FetchOutcome.response false status errorBody content) =
        Except.error ("Together AI API Error: " ++ toString status ++ " - " ++ errorBody)) ∧
    (∀ status errorBody,
      callTogetherAI (FetchOutcome.response true status errorBody none) =
        Except.error "TypeError: cannot read message content of undefined") ∧
    (∀ status errorBody text,
      callTogetherAI (FetchOutcome.response true status errorBody (some text)) =
        Except.ok (jsTrim text)) ∧
    (∀ text : String, ∃ pre suf : List Char,
      pre.all Char.isWhitespace = true ∧ suf.all Char.isWhitespace = true ∧
      text.data = pre ++ (jsTrim text).data ++ suf) := by
  refine ⟨fun _ => rfl, fun _ _ _ => rfl, fun _ _ => rfl, fun _ _ _ => rfl, ?_⟩
  intro text
  refine ⟨text.data.takeWhile Char.isWhitespace,
    ((text.data.dropWhile Char.isWhitespace).reverse.takeWhile Char.isWhitespace).reverse,
    ?_, ?_, ?_⟩
  · rw [List.all_eq_true]
    intro x hx
    exact List.mem_takeWhile_imp hx
  · rw [List.all_eq_true]
    intro x hx
    rw [List.mem_reverse] at hx
    exact List.mem_takeWhile_imp hx
  · simp only [jsTrim, data_mk]
    conv_lhs => rw [← List.takeWhile_append_dropWhile (p := Char.isWhitespace) (l := text.data)]
    rw [List.append_assoc]
    congr 1
    conv_lhs => rw [← List.reverse_reverse (text.data.dropWhile Char.isWhitespace),
      ← List.takeWhile_append_dropWhile (p := Char.isWhitespace)
        (l := (text.data.dropWhile Char.isWhitespace).reverse)]
    rw [List.reverse_append]

/-- C7: with a completion service whose answers do not depend on the
invocation counter (the same prompt always yields the same text),
running the chain starting from any two counter positions — in
particular running it twice in a row — yields identical results. -/
theorem runPromptChain_deterministic {ε : Type} (svc : ℕ → ApiCall → Except ε String)
    (query : String) (n₁ n₂ : ℕ) (h : ∀ n c, svc n c = svc 0 c) :
    runPromptChainIndexed svc n₁ query = runPromptChainIndexed svc n₂ query := by
  simp only [runPromptChainIndexed, h]

/-- C7 witness: a concrete deterministic service gives the same result
from counter position 0 and counter position 9. -/
theorem runPromptChain_deterministic_witness :
    runPromptChainIndexed svcConstIdx 0 "hello" = runPromptChainIndexed svcConstIdx 9 "hello" :=
  runPromptChain_deterministic svcConstIdx "hello" 0 9 (fun _ _ => rfl)

/-- C8: in the batch loop, when every query before `q` succeeds and the
chain fails on `q`, the whole batch aborts: exactly the queries up to
and including `q` are started, the queries after `q` are never started,
and the single try/catch surfaces the error. -/
theorem processBatch_aborts_after_failure {ε : Type} (svc : ApiCall → Except ε String)
    (qs₁ : List String) (q : String) (qs₂ : List String) (e : ε)
    (h₁ : ∀ p ∈ qs₁, ∃ l, runPromptChain svc p = Except.ok l)
    (h₂ : runPromptChain svc q = Except.error e) :
    processBatch svc (qs₁ ++ q :: qs₂) = (qs₁ ++ [q], Except.error e) := by
  induction qs₁ with
  | nil => simp only [List.nil_append, processBatch, h₂]
  | cons p ps ih =>
    obtain ⟨l, hl⟩ := h₁ p (by simp)
    have hrec := ih (fun r hr => h₁ r (by simp [hr]))
    simp only [List.cons_append, processBatch, hl, List.append_eq, hrec]

set_option maxRecDepth 20000 in
/-- C8 witness: with a service that fails on queries mentioning `!`, the
batch `["good", "bad!", "later"]` starts only `"good"` and `"bad!"` —
`"later"` is never started — and surfaces the failure. -/
theorem processBatch_aborts_after_failure_witness :
    processBatch svcBang (["good"] ++ "bad!" :: ["later"]) =
      (["good"] ++ ["bad!"], Except.error "boom") :=
  processBatch_aborts_after_failure svcBang ["good"] "bad!" ["later"] "boom"
    (by
      intro p hp
      simp only [List.mem_singleton] at hp
      subst hp
      exact ⟨["out", "out", "out", "out", "out"], by rfl⟩)
    (by rfl)

/-- C9: the stage-5 generation temperature (0.5) is strictly higher than
the temperature of each of stages 1 through 4 (all 0.3). -/
theorem stage5_temperature_strictly_highest
    (query intent categories selectedCategory details : String) :
    (stage1Call query).temperature <
      (stage5Call selectedCategory intent details query).temperature ∧
    (stage2Call intent).temperature <
      (stage5Call selectedCategory intent details query).temperature ∧
    (stage3Call intent query categories).temperature <
      (stage5Call selectedCategory intent details query).temperature ∧
    (stage4Call query (categoryNameOf selectedCategory)).temperature <
      (stage5Call selectedCategory intent details query).temperature := by
  refine ⟨?_, ?_, ?_, ?_⟩ <;>
    norm_num [stage1Call, stage2Call, stage3Call, stage4Call, stage5Call]

/-- C10: a success response whose generated content is empty (or only
whitespace) does not make `callTogetherAI` fail — it returns the empty
string — and a service built from such responses yields a successful
5-element pipeline result whose entries are all the empty string. -/
theorem empty_content_is_success :
    callTogetherAI (FetchOutcome.response true 200 "" (some "")) = Except.ok "" ∧
    callTogetherAI (FetchOutcome.response true 200 "" (some "   ")) = Except.ok "" ∧
    runPromptChain svcEmpty "any query" = Except.ok ["", "", "", "", ""] := by
  refine ⟨rfl, by rfl, by rfl⟩

end BankSupportChain
